import Mathlib

/-!
# Verification of `syft/serde.py` (type-directed serialization pipeline)

Shallow embedding of the module `src/syft/serde.py`: a registry-driven
simplify/detail engine wrapped by a msgpack + lz4 encode/decode pipeline.

Python's dynamically-typed value universe is modelled by the inductive
`Value`; the external collaborators (pickle, msgpack, lz4) are modelled
abstractly by their contracts (spec §6): byte strings are the inductive
`Bytes`, whose constructors tag which external encoder produced them, so
that each decoder succeeds exactly on its own encoder's output and fails
(raises) elsewhere. Python exceptions are modelled by `Except PyErr`.
-/

/-- Opaque payload of a `torch.Tensor` (the pipeline never inspects it). -/
structure TorchTensor where
  data : List Int
deriving DecidableEq

mutual
/-- A Python runtime value, restricted to the types `serde.py` handles:
primitives, byte strings, the three registered containers, tensors, and
instances of user subclasses of `list` (used to state exact-type dispatch:
`type(v)` of such an instance is the subclass, not `list`). A float is kept
as its opaque bit pattern; the pipeline never computes with it. A set is
modelled by the list of its elements in iteration order. -/
inductive Value where
  | none : Value
  | bool : Bool → Value
  | int : Int → Value
  | float : Nat → Value
  | str : String → Value
  | bytes : Bytes → Value
  | list : List Value → Value
  | tuple : List Value → Value
  | set : List Value → Value
  | tensor : TorchTensor → Value
  | sublist : Nat → List Value → Value

/-- A Python `bytes` object. Constructors record provenance: raw caller
bytes, `pickle.dumps` output, `msgpack.dumps` output, or an lz4 frame. -/
inductive Bytes where
  | raw : List Nat → Bytes
  | pickled : Value → Bytes
  | msgpacked : Value → Bytes
  | lz4framed : Bytes → Bytes
end

/-- Python exceptions that the module can raise. -/
inductive PyErr where
  /-- Python `KeyError`, e.g. from a failed dict lookup. -/
  | keyError : PyErr
  /-- The error `TypeError: 'bool' object is not callable`. -/
  | notCallable : PyErr
  /-- A `TypeError` from msgpack on an unserializable object. -/
  | typeError : PyErr
  /-- An `UnpicklingError` (or similar) from `pickle.loads` on foreign bytes. -/
  | unpicklingError : PyErr
  /-- msgpack unpack failure on bytes that are not a msgpack document. -/
  | unpackError : PyErr
  /-- lz4 frame decompression failure on a non-lz4 input. -/
  | lz4FrameError : PyErr
deriving DecidableEq

/-- The exact runtime type of a value, i.e. what Python's `type(obj)`
returns. A `list` subclass instance has its own type `subListT cls`,
distinct from `listT`. -/
inductive PyType where
  | noneT : PyType
  | boolT : PyType
  | intT : PyType
  | floatT : PyType
  | strT : PyType
  | bytesT : PyType
  | listT : PyType
  | tupleT : PyType
  | setT : PyType
  | tensorT : PyType
  | subListT : Nat → PyType
deriving DecidableEq

/-- Python's `type(obj)` for the modelled universe. -/
def Value.typeOf : Value → PyType
  | .none => .noneT
  | .bool _ => .boolT
  | .int _ => .intT
  | .float _ => .floatT
  | .str _ => .strT
  | .bytes _ => .bytesT
  | .list _ => .listT
  | .tuple _ => .tupleT
  | .set _ => .setT
  | .tensor _ => .tensorT
  | .sublist cls _ => .subListT cls

/-! ## External collaborators (spec §6), modelled by their contracts

`pickle` is the opaque-object codec: `loads (dumps v) = v`, and `loads`
raises on bytes that are not pickle output. `msgpack` is the wire encoder:
it round-trips the wire-safe set, decodes arrays (from lists or tuples) as
Python lists, and raises `TypeError` on unsupported objects such as sets.
`lz4.frame` is the compressor: `decompress (compress b) = b`, raising on
non-lz4 input. -/

/-- Model of `pickle.dumps`: total, injective by construction. -/
def pickleDumps (v : Value) : Bytes := Bytes.pickled v

/-- Model of `pickle.loads`: inverts `pickleDumps`, raises on any other bytes. -/
def pickleLoads : Bytes → Except PyErr Value
  | .pickled v => .ok v
  | _ => .error .unpicklingError

mutual
/-- Whether msgpack can serialize a value: primitives, bytes, and
arrays (lists or tuples) of serializable values. Sets, tensors and
arbitrary objects make `msgpack.dumps` raise `TypeError`. -/
def msgpackAble : Value → Bool
  | .none => true
  | .bool _ => true
  | .int _ => true
  | .float _ => true
  | .str _ => true
  | .bytes _ => true
  | .list xs => msgpackAbleList xs
  | .tuple xs => msgpackAbleList xs
  | _ => false

def msgpackAbleList : List Value → Bool
  | [] => true
  | x :: xs => msgpackAble x && msgpackAbleList xs
end

mutual
/-- The value `msgpack.loads (msgpack.dumps v)` decodes to: msgpack
serializes both lists and tuples as arrays, and arrays always decode
as Python lists, so tuples collapse to lists. -/
def msgpackCanon : Value → Value
  | .list xs => .list (msgpackCanonList xs)
  | .tuple xs => .list (msgpackCanonList xs)
  | v => v

def msgpackCanonList : List Value → List Value
  | [] => []
  | x :: xs => msgpackCanon x :: msgpackCanonList xs
end

/-- Model of `msgpack.dumps`: encodes a serializable value, raises `TypeError`
otherwise. -/
def msgpackDumps (v : Value) : Except PyErr Bytes :=
  if msgpackAble v then .ok (Bytes.msgpacked (msgpackCanon v)) else .error .typeError

/-- Model of `msgpack.loads`: inverts `msgpackDumps` up to the array/list collapse
recorded by `msgpackCanon`, raises on foreign bytes. -/
def msgpackLoads : Bytes → Except PyErr Value
  | .msgpacked v => .ok v
  | _ => .error .unpackError

/-- Model of `lz4.frame.compress` (the module-level `compress` in `serde.py`
delegates to it and is never successfully reached — see `serialize`). -/
def lz4Compress (b : Bytes) : Bytes := Bytes.lz4framed b

/-- Model of `lz4.frame.decompress`, raising on input that is not an lz4 frame;
`serde.decompress` delegates to it. -/
def decompress : Bytes → Except PyErr Bytes
  | .lz4framed b => .ok b
  | _ => .error .lz4FrameError

/-! ## The recursive simplify engine (`serde.py` lines 71-164)

The module dict `simplifiers` holds `_simplify_torch_tensor` for
`torch.Tensor` and `_simplify_collection` for `tuple`, `list` and `set`;
`_simplify` dispatches on `type(obj)` and falls through to the identity
when the exact type has no entry. Because the dict's values call back into
`_simplify`, the Lean embedding defines the recursive engine first by the
exact dispatch the dict produces, then defines the named transform
functions and the dict, and proves the dispatch equation
(`simplify_eq_registry_dispatch`) relating them. -/

mutual
/-- The router `_simplify` (lines 125-156) specialised to the module registry:
tensors are pickled to bytes, the three registered collections are
rebuilt with simplified elements, and every other exact type falls
into the `except KeyError` branch and is returned unchanged. -/
def _simplify : Value → Value
  | .tensor t => .bytes (pickleDumps (.tensor t))
  | .tuple xs => .tuple (simplifyList xs)
  | .list xs => .list (simplifyList xs)
  | .set xs => .set (simplifyList xs)
  | v => v

/-- The element loop of `_simplify_collection`: `_simplify` on each
element, in iteration order. -/
def simplifyList : List Value → List Value
  | [] => []
  | x :: xs => _simplify x :: simplifyList xs
end

/-- Lines 71-72, `_simplify_torch_tensor`: `pickle.dumps(tensor)`.
(`pickle.dumps` accepts any object; the registry only ever routes
tensors here.) -/
def _simplify_torch_tensor (v : Value) : Value :=
  .bytes (pickleDumps v)

/-- Lines 82-108, `_simplify_collection`: iterate the collection,
`_simplify` each element, and rebuild the same concrete container type
(`my_type(pieces)`). Only registered for `tuple`, `list`, `set`, so the
final catch-all arm is never reached through the registry. -/
def _simplify_collection : Value → Value
  | .tuple xs => .tuple (simplifyList xs)
  | .list xs => .list (simplifyList xs)
  | .set xs => .set (simplifyList xs)
  | v => v

/-- The module dict `simplifiers` (lines 159-164), as a map from exact
type to transform. -/
def simplifiers : PyType → Option (Value → Value)
  | .tensorT => some _simplify_torch_tensor
  | .tupleT => some _simplify_collection
  | .listT => some _simplify_collection
  | .setT => some _simplify_collection
  | _ => none

/-! ## The recursive detail engine (`serde.py` lines 75-76, 111-119, 167-177)

`detailers` holds `_detail_collection` for `tuple` and `list` and
`_detail_torch_tensor` for `bytes` — and nothing else (no `set` entry).
`_detail` dispatches with `if t in detailers` and passes unregistered
types through. Detail functions can raise (e.g. `pickle.loads` on foreign
bytes), and `_detail` has no try/except, so such errors propagate. -/

mutual
/-- The router `_detail` (lines 167-171) specialised to the module registry. -/
def _detail : Value → Except PyErr Value
  | .tuple xs => Except.map Value.list (detailList xs)
  | .list xs => Except.map Value.list (detailList xs)
  | .bytes b => pickleLoads b
  | v => .ok v

/-- The element loop of `_detail_collection`: `_detail` each element in
order, collecting into a Python list; an exception in any element
propagates out of the loop. -/
def detailList : List Value → Except PyErr (List Value)
  | [] => .ok []
  | x :: xs =>
    match _detail x with
    | .error e => .error e
    | .ok y => Except.map (fun ys => y :: ys) (detailList xs)
end

/-- Lines 75-76, `_detail_torch_tensor`: `pickle.loads(tensor)`. The
argument is expected to be a bytes object; `pickle.loads` raises
`TypeError` on anything else. -/
def _detail_torch_tensor : Value → Except PyErr Value
  | .bytes b => pickleLoads b
  | _ => .error .typeError

/-- Lines 111-119, `_detail_collection`: `_detail` each element and
return the results as a plain Python list, never rebuilding the input's
container kind. Registered only for `tuple` and `list`; iterating a
non-iterable raises `TypeError`. -/
def _detail_collection : Value → Except PyErr Value
  | .tuple xs => Except.map Value.list (detailList xs)
  | .list xs => Except.map Value.list (detailList xs)
  | .set xs => Except.map Value.list (detailList xs)
  | _ => .error .typeError

/-- The module dict `detailers` (lines 174-177). Note the asymmetry with
`simplifiers`: no entry for `set`, and the `bytes` entry unconditionally
routes to the pickle detailer. -/
def detailers : PyType → Option (Value → Except PyErr Value)
  | .tupleT => some _detail_collection
  | .listT => some _detail_collection
  | .bytesT => some _detail_torch_tensor
  | _ => none

/-! ## The pipeline (`serde.py` lines 39-66) -/

/-- Lines 39-47, `serialize`. The `compress` parameter (default `True`)
shadows the module-level `compress` function inside the body, so the line
`return compress(binary)` calls the boolean `True` and raises
`TypeError: 'bool' object is not callable`; the lz4 path is unreachable. -/
def serialize (obj : Value) (compress : Bool) : Except PyErr Bytes :=
  let simple_objects := _simplify obj
  match msgpackDumps simple_objects with
  | .error e => .error e
  | .ok binary =>
    if compress then
      .error .notCallable
    else
      .ok binary

/-- Lines 50-56, `deserialize`: optional decompression, then
`msgpack.loads`, then `_detail`. -/
def deserialize (binary : Bytes) (compressed : Bool) : Except PyErr Value :=
  match (if compressed then decompress binary else .ok binary) with
  | .error e => .error e
  | .ok b =>
    match msgpackLoads b with
    | .error e => .error e
    | .ok simple_objects => _detail simple_objects

/-! ## The dispatch-with-try/except shape of `_simplify`

`simplifiers` is a module-level mutable dict extended by registration
(spec §6), and registered transforms may raise. `simplify_dispatch`
embeds lines 144-156 literally, over an arbitrary registry state `reg`:
`simplifiers[type(obj)](obj)` inside `try ... except KeyError`. A missing
key raises `KeyError`, caught, returning `obj` — but a `KeyError` raised
*inside* the transform is caught by the same handler. -/

def simplify_dispatch (reg : PyType → Option (Value → Except PyErr Value))
    (obj : Value) : Except PyErr Value :=
  match reg obj.typeOf with
  | Option.none => .ok obj
  | Option.some f =>
    match f obj with
    | .error .keyError => .ok obj
    | r => r

/-! ## Fidelity lemmas: the recursive engines equal dict dispatch -/

theorem simplifyList_eq_map (xs : List Value) : simplifyList xs = xs.map _simplify := by
  induction xs with
  | nil => rfl
  | cons x xs ih => simp [simplifyList, ih]

theorem simplify_eq_registry_dispatch (v : Value) :
    _simplify v = match simplifiers v.typeOf with
      | Option.some f => f v
      | Option.none => v := by
  cases v <;> rfl

theorem detail_eq_registry_dispatch (v : Value) :
    _detail v = match detailers v.typeOf with
      | Option.some f => f v
      | Option.none => .ok v := by
  cases v <;> rfl

theorem detailList_eq_mapM (xs : List Value) : detailList xs = xs.mapM _detail := by
  induction xs with
  | nil => rfl
  | cons x xs ih =>
    rw [List.mapM_cons, detailList, ih]
    cases h : _detail x <;> cases h2 : xs.mapM _detail <;>
      simp [Except.map, Except.bind, Bind.bind, h2, Except.pure, Pure.pure]

theorem simplify_dispatch_concrete (v : Value) :
    simplify_dispatch (fun t => (simplifiers t).map (fun f w => Except.ok (f w))) v
      = Except.ok (_simplify v) := by
  cases v <;> rfl

/-! ## The end-to-end supported set

Values supported end-to-end by the registered transforms: wire
primitives (msgpack-native, and not intercepted by a detailer), tensors
(simplified to pickle bytes, detailed back by `pickle.loads`), and lists
thereof. Plain `bytes` are excluded (detail feeds them to `pickle.loads`),
tuples are excluded (msgpack returns them as lists), and sets are excluded
(msgpack raises `TypeError` on them). -/

mutual
def RoundSafe : Value → Bool
  | .none => true
  | .bool _ => true
  | .int _ => true
  | .float _ => true
  | .str _ => true
  | .tensor _ => true
  | .list xs => RoundSafeList xs
  | _ => false

def RoundSafeList : List Value → Bool
  | [] => true
  | x :: xs => RoundSafe x && RoundSafeList xs
end

mutual
theorem msgpackAble_simplify : (v : Value) → RoundSafe v = true →
    msgpackAble (_simplify v) = true
  | .none, _ => rfl
  | .bool _, _ => rfl
  | .int _, _ => rfl
  | .float _, _ => rfl
  | .str _, _ => rfl
  | .tensor _, _ => rfl
  | .list xs, h => msgpackAbleList_simplifyList xs h
  | .bytes _, h => Bool.noConfusion h
  | .tuple _, h => Bool.noConfusion h
  | .set _, h => Bool.noConfusion h
  | .sublist _ _, h => Bool.noConfusion h

theorem msgpackAbleList_simplifyList : (xs : List Value) → RoundSafeList xs = true →
    msgpackAbleList (simplifyList xs) = true
  | [], _ => rfl
  | x :: xs, h => by
    have h' : RoundSafe x = true ∧ RoundSafeList xs = true := by
      simpa [RoundSafeList, Bool.and_eq_true] using h
    simp [simplifyList, msgpackAbleList, Bool.and_eq_true]
    exact ⟨msgpackAble_simplify x h'.1, msgpackAbleList_simplifyList xs h'.2⟩
end

mutual
theorem canon_simplify : (v : Value) → RoundSafe v = true →
    msgpackCanon (_simplify v) = _simplify v
  | .none, _ => rfl
  | .bool _, _ => rfl
  | .int _, _ => rfl
  | .float _, _ => rfl
  | .str _, _ => rfl
  | .tensor _, _ => rfl
  | .list xs, h => by
    simp [_simplify, msgpackCanon]
    exact canonList_simplifyList xs h
  | .bytes _, h => Bool.noConfusion h
  | .tuple _, h => Bool.noConfusion h
  | .set _, h => Bool.noConfusion h
  | .sublist _ _, h => Bool.noConfusion h

theorem canonList_simplifyList : (xs : List Value) → RoundSafeList xs = true →
    msgpackCanonList (simplifyList xs) = simplifyList xs
  | [], _ => rfl
  | x :: xs, h => by
    have h' : RoundSafe x = true ∧ RoundSafeList xs = true := by
      simpa [RoundSafeList, Bool.and_eq_true] using h
    simp [simplifyList, msgpackCanonList]
    exact ⟨canon_simplify x h'.1, canonList_simplifyList xs h'.2⟩
end

mutual
theorem detail_simplify : (v : Value) → RoundSafe v = true →
    _detail (_simplify v) = Except.ok v
  | .none, _ => rfl
  | .bool _, _ => rfl
  | .int _, _ => rfl
  | .float _, _ => rfl
  | .str _, _ => rfl
  | .tensor _, _ => rfl
  | .list xs, h => by
    simp [_simplify, _detail]
    rw [detailList_simplifyList xs h]
    rfl
  | .bytes _, h => Bool.noConfusion h
  | .tuple _, h => Bool.noConfusion h
  | .set _, h => Bool.noConfusion h
  | .sublist _ _, h => Bool.noConfusion h

theorem detailList_simplifyList : (xs : List Value) → RoundSafeList xs = true →
    detailList (simplifyList xs) = Except.ok xs
  | [], _ => rfl
  | x :: xs, h => by
    have h' : RoundSafe x = true ∧ RoundSafeList xs = true := by
      simpa [RoundSafeList, Bool.and_eq_true] using h
    simp [simplifyList, detailList, detail_simplify x h'.1,
      detailList_simplifyList xs h'.2, Except.map]
end

theorem roundtrip_uncompressed (v : Value) (h : RoundSafe v = true) :
    (serialize v false).bind (fun b => deserialize b false) = Except.ok v := by
  have hm := msgpackAble_simplify v h
  simp [serialize, msgpackDumps, hm, Except.bind, deserialize, msgpackLoads,
    canon_simplify v h]
  exact detail_simplify v h

/-- Exact-type test for "is a Python list" on detail results. -/
def isListValue : Value → Bool
  | .list _ => true
  | _ => false

/-- The wire primitives other than byte strings: None, bool, int, float, str. -/
def wirePrimNonBytes : Value → Bool
  | .none => true
  | .bool _ => true
  | .int _ => true
  | .float _ => true
  | .str _ => true
  | _ => false

/-- C1: the claim says `serialize obj (compress := true)` returns the
lz4-compressed msgpack encoding. In the source the boolean parameter
`compress` shadows the module-level `compress` function, so
`compress(binary)` calls `True` and raises `TypeError: 'bool' object is
not callable`; no compressed bytes are ever returned. -/
theorem C1_compress_flag_raises :
    serialize (Value.int 1) true = Except.error PyErr.notCallable ∧
    serialize (Value.int 1) true
      ≠ Except.ok (lz4Compress (Bytes.msgpacked (Value.int 1))) :=
  ⟨rfl, fun h => nomatch h⟩

/-- C2: message round-trip. The compressed direction fails for every
object — already at `serialize` — because of the `compress` parameter
shadowing (the concrete witness `[1]` is a fully supported object); the
uncompressed direction round-trips every value in the end-to-end
supported set `RoundSafe` (primitives, tensors, and nested lists). -/
theorem C2_message_roundtrip :
    ((serialize (Value.list [Value.int 1]) true).bind (fun b => deserialize b true)
      = Except.error PyErr.notCallable) ∧
    ∀ v, RoundSafe v = true →
      (serialize v false).bind (fun b => deserialize b false) = Except.ok v :=
  ⟨rfl, fun v h => roundtrip_uncompressed v h⟩

/-- Witness for C2: the list `[2, tensor [3]]` round-trips uncompressed. -/
theorem C2_message_roundtrip_witness :
    RoundSafe (Value.list [Value.int 2, Value.tensor ⟨[3]⟩]) = true ∧
    (serialize (Value.list [Value.int 2, Value.tensor ⟨[3]⟩]) false).bind
        (fun b => deserialize b false)
      = Except.ok (Value.list [Value.int 2, Value.tensor ⟨[3]⟩]) :=
  ⟨rfl, C2_message_roundtrip.2 _ rfl⟩

/-- C3: pass-through law — any value whose exact runtime type has no
entry in `simplifiers` is returned unchanged by `_simplify` (the dict
lookup raises `KeyError`, caught by the `except KeyError` branch). -/
theorem C3_passthrough (v : Value) (h : simplifiers v.typeOf = Option.none) :
    _simplify v = v := by
  cases v <;> first
    | rfl
    | exact absurd h (by simp [simplifiers, Value.typeOf])

/-- Witness for C3: strings have no simplifier and pass through. -/
theorem C3_passthrough_witness :
    simplifiers (Value.str "ab").typeOf = Option.none ∧
    _simplify (Value.str "ab") = Value.str "ab" :=
  ⟨rfl, C3_passthrough (Value.str "ab") rfl⟩

/-- C4 counterexample: the claim includes byte-blobs among the wire
primitives, but `detailers[bytes]` is `_detail_torch_tensor`, so
`detail(simplify(b"hi"))` runs `pickle.loads(b"hi")`, which raises on
these non-pickle bytes instead of returning them unchanged. -/
theorem C4_counterexample :
    _detail (_simplify (Value.bytes (Bytes.raw [104, 105])))
      ≠ Except.ok (Value.bytes (Bytes.raw [104, 105])) :=
  fun h => nomatch h

/-- C4 amended: `detail (simplify v) = v` for the wire primitives other
than byte strings: None, booleans, integers, floats and strings. -/
theorem C4_prim_roundtrip (v : Value) (h : wirePrimNonBytes v = true) :
    _detail (_simplify v) = Except.ok v := by
  cases v <;> first
    | rfl
    | exact Bool.noConfusion h

/-- Witness for C4's amended claim: a float round-trips unchanged. -/
theorem C4_prim_roundtrip_witness :
    wirePrimNonBytes (Value.float 0) = true ∧
    _detail (_simplify (Value.float 0)) = Except.ok (Value.float 0) :=
  ⟨rfl, C4_prim_roundtrip (Value.float 0) rfl⟩

/-- C5: `_simplify_collection` is registered for `list`, `tuple` and
`set`, and `_simplify` on each rebuilds the same concrete container kind
with `_simplify` applied elementwise in iteration order. -/
theorem C5_collection_simplify (xs : List Value) :
    simplifiers PyType.listT = Option.some _simplify_collection ∧
    simplifiers PyType.tupleT = Option.some _simplify_collection ∧
    simplifiers PyType.setT = Option.some _simplify_collection ∧
    _simplify (Value.list xs) = Value.list (xs.map _simplify) ∧
    _simplify (Value.tuple xs) = Value.tuple (xs.map _simplify) ∧
    _simplify (Value.set xs) = Value.set (xs.map _simplify) :=
  ⟨rfl, rfl, rfl,
    by simp [_simplify, simplifyList_eq_map],
    by simp [_simplify, simplifyList_eq_map],
    by simp [_simplify, simplifyList_eq_map]⟩

/-- C6: `_detail` on a registered collection returns `_detail` of the
elements collected into a plain list; a tuple details exactly like a
list, and every successful result is a `list` value, never a tuple. -/
theorem C6_collection_detail (xs : List Value) :
    _detail (Value.tuple xs) = Except.map Value.list (xs.mapM _detail) ∧
    _detail (Value.list xs) = Except.map Value.list (xs.mapM _detail) ∧
    _detail (Value.tuple xs) = _detail (Value.list xs) ∧
    Option.all isListValue (_detail (Value.tuple xs)).toOption = true :=
  ⟨by rw [show _detail (Value.tuple xs) = Except.map Value.list (detailList xs) from rfl,
      detailList_eq_mapM],
   by rw [show _detail (Value.list xs) = Except.map Value.list (detailList xs) from rfl,
      detailList_eq_mapM],
   rfl,
   by show Option.all isListValue (Except.map Value.list (detailList xs)).toOption = true
      cases detailList xs <;> rfl⟩

/-- C7 counterexample: `detailers` has no entry for `set` (only `tuple`,
`list`, `bytes`), so `_detail` passes a set through unchanged — here a
set holding a pickled tensor keeps its raw bytes element instead of the
detailed tensor. -/
theorem C7_counterexample :
    detailers PyType.setT = Option.none ∧
    _detail (Value.set [Value.bytes (Bytes.pickled (Value.tensor ⟨[7]⟩))])
      = Except.ok (Value.set [Value.bytes (Bytes.pickled (Value.tensor ⟨[7]⟩))]) ∧
    _detail (Value.set [Value.bytes (Bytes.pickled (Value.tensor ⟨[7]⟩))])
      ≠ Except.ok (Value.set [Value.tensor ⟨[7]⟩]) :=
  ⟨rfl, rfl, fun h => nomatch h⟩

/-- C7 amended: the collection transform is registered for all three
kinds on the simplify side but only for `list` and `tuple` on the detail
side; `_detail` passes any set through unchanged. -/
theorem C7_amended_registration (xs : List Value) :
    simplifiers PyType.listT = Option.some _simplify_collection ∧
    simplifiers PyType.tupleT = Option.some _simplify_collection ∧
    simplifiers PyType.setT = Option.some _simplify_collection ∧
    detailers PyType.listT = Option.some _detail_collection ∧
    detailers PyType.tupleT = Option.some _detail_collection ∧
    detailers PyType.setT = Option.none ∧
    _detail (Value.set xs) = Except.ok (Value.set xs) :=
  ⟨rfl, rfl, rfl, rfl, rfl, rfl, rfl⟩

/-- C8: the `try/except KeyError` in `_simplify` (lines 144-156) also
catches a `KeyError` raised *inside* a registered transform and silently
returns the input unchanged, while any other exception propagates —
contradicting the spec's "no silent recovery" error policy. -/
theorem C8_keyerror_swallowed :
    simplify_dispatch (fun _ => Option.some (fun _ => Except.error PyErr.keyError))
        (Value.int 0)
      = Except.ok (Value.int 0) ∧
    simplify_dispatch (fun _ => Option.some (fun _ => Except.error PyErr.typeError))
        (Value.int 0)
      = Except.error PyErr.typeError :=
  ⟨rfl, rfl⟩

/-- C9: dispatch is by exact runtime type. An instance of a `list`
subclass has type `subListT cls`, which has no entry in either registry,
so both engines pass it through unchanged even though the `list`
supertype has a registered transform. -/
theorem C9_exact_type_dispatch (cls : Nat) (xs : List Value) :
    simplifiers PyType.listT = Option.some _simplify_collection ∧
    simplifiers (PyType.subListT cls) = Option.none ∧
    detailers (PyType.subListT cls) = Option.none ∧
    (Value.sublist cls xs).typeOf = PyType.subListT cls ∧
    _simplify (Value.sublist cls xs) = Value.sublist cls xs ∧
    _detail (Value.sublist cls xs) = Except.ok (Value.sublist cls xs) :=
  ⟨rfl, rfl, rfl, rfl, rfl, rfl⟩

/-- C10: `detailers[bytes]` is `_detail_torch_tensor`, so `_detail`
applies `pickle.loads` to every bytes value regardless of provenance;
raw bytes that are not pickle output make it raise. -/
theorem C10_bytes_always_unpickled (b : Bytes) :
    detailers PyType.bytesT = Option.some _detail_torch_tensor ∧
    _detail (Value.bytes b) = _detail_torch_tensor (Value.bytes b) ∧
    _detail_torch_tensor (Value.bytes b) = pickleLoads b ∧
    _detail (Value.bytes (Bytes.raw [0])) = Except.error PyErr.unpicklingError :=
  ⟨rfl, rfl, rfl, rfl⟩
